import Mathlib

/-!
Verification development for the Kids-Chore-Monitor repository.

The Python sources are shallowly embedded as executable Lean definitions:

* `state_manager.py`  : `check_if_done_today`, `mark_done_today`, `load_state`,
  and the serialization performed by `save_state` (JSON object with sorted keys).
* `main.py`           : `get_time_status` (the cutoff comparison), the
  intention-determination phase of `process_child`, `apply_firewall_action`,
  and the post-apply state update of `process_child`.
* `scheduled_actions.py` : `_parse_hhmm`, `_action_key_for_rule`, and
  `ScheduledRuleEnforcer.enforce_daily_disable`.

Python strings are embedded as Lean `String`; the handful of Python string
operations used by the sources (lower, strip, int, split, in) are re-implemented
over `List Char` so that every definition evaluates inside the kernel.
External collaborators (the Todoist oracle and the Sophos actuator) are
embedded as response functions, with their documented error kinds as explicit
outcome constructors; a raised Python exception is an explicit outcome value.
-/

namespace ChoreMonitor

/-! ## Python string primitives (ASCII semantics) -/

/-- Python `str.lower()` (ASCII range; the repository only lowercases
ASCII child names and rule names). -/
def pyLower (s : String) : String :=
  String.mk (s.data.map Char.toLower)

/-- Python falsiness of a string: `not s` is true exactly for the empty string. -/
def pyFalsy (s : String) : Bool :=
  s.data.isEmpty

/-- Python `str.strip()`: remove leading and trailing whitespace. -/
def pyStrip (s : String) : String :=
  String.mk (((s.data.dropWhile Char.isWhitespace).reverse.dropWhile Char.isWhitespace).reverse)

/-- Value of a nonempty digit string, most significant digit first. -/
def digitsVal : List Char → Nat → Option Nat
  | [], acc => some acc
  | c :: rest, acc =>
      if c.isDigit then digitsVal rest (acc * 10 + (c.toNat - '0'.toNat)) else none

/-- Python `int(s)`: optional surrounding whitespace, optional sign, then
decimal digits; anything else raises ValueError, modelled as `none`
(PEP 515 underscore grouping is not modelled). -/
def pyInt? (s : String) : Option Int :=
  let t := pyStrip s
  let signAndDigits : Bool × List Char :=
    match t.data with
    | '-' :: rest => (true, rest)
    | '+' :: rest => (false, rest)
    | cs => (false, cs)
  match signAndDigits.2 with
  | [] => none
  | ds =>
      match digitsVal ds 0 with
      | none => none
      | some n => some (if signAndDigits.1 then -(n : Int) else (n : Int))

/-! ## state_manager.py : the in-memory state dictionary

A Python `dict[str, str]` is embedded as an insertion-ordered association
list; `dictGet` is `dict.get`, `dictSet` is item assignment (replace in
place when the key exists, append otherwise). -/

def dictGet : List (String × String) → String → Option String
  | [], _ => none
  | (k, v) :: rest, key => if k = key then some v else dictGet rest key

def dictSet : List (String × String) → String → String → List (String × String)
  | [], key, val => [(key, val)]
  | (k, v) :: rest, key, val =>
      if k = key then (k, val) :: rest else (k, v) :: dictSet rest key val

/-- StateManager.check_if_done_today (state_manager.py lines 124-146):
guard against empty arguments, lowercase the child name, then compare the
stored date with the queried date by exact string equality. -/
def check_if_done_today (state : List (String × String))
    (child_name today_str : String) : Bool :=
  if pyFalsy child_name || pyFalsy today_str then
    false
  else
    decide (dictGet state (pyLower child_name) = some today_str)

/-- StateManager.mark_done_today (state_manager.py lines 148-167): guard
against empty arguments, then set the lowercased key to the date string,
in memory only. -/
def mark_done_today (state : List (String × String))
    (child_name today_str : String) : List (String × String) :=
  if pyFalsy child_name || pyFalsy today_str then
    state
  else
    dictSet state (pyLower child_name) today_str

/-- Content of the state file as seen by `json.load`: either a JSON object
(values are strings per the documented schema) or some non-object JSON
value. -/
inductive JsonContent
  | dict (d : List (String × String))
  | array
  | string (s : String)
  | number
  | boolean (b : Bool)
  | null

/-- Outcome of opening and parsing the state file inside the `try` block of
`load_state`, as discriminated by its `except` chain. -/
inductive ReadOutcome
  | fileNotFound
  | jsonDecodeError
  | ioError
  | unexpectedError
  | ok (j : JsonContent)

/-- Projection used to state C9: the successfully-parsed-object case. -/
def ReadOutcome.okDict? : ReadOutcome → Option (List (String × String))
  | .ok (.dict d) => some d
  | _ => none

/-- StateManager.load_state (state_manager.py lines 54-88): every failure
mode of the read (file not found, JSON decode error, IO error, unexpected
exception) and non-dictionary content reset the in-memory state to the
empty map; a parsed JSON object becomes the new state. The function is
total: no outcome propagates an exception to the caller. -/
def load_state (r : ReadOutcome) : List (String × String) :=
  match r with
  | .ok j =>
      match j with
      | .dict d => d
      | _ => []
  | .fileNotFound => []
  | .jsonDecodeError => []
  | .ioError => []
  | .unexpectedError => []

/-- Ascending code-point comparison of character lists, the order of Python
string comparison used by `sorted`. -/
def strLtChars : List Char → List Char → Bool
  | [], [] => false
  | [], _ :: _ => true
  | _ :: _, [] => false
  | a :: as, b :: bs =>
      if a.toNat < b.toNat then true
      else if b.toNat < a.toNat then false
      else strLtChars as bs

/-- Python `<` on strings (lexicographic by code point). -/
def pyStrLt (a b : String) : Bool :=
  strLtChars a.data b.data

/-- Insert a pair into a key-sorted list, keeping ascending key order. -/
def sortPairsInsert (p : String × String) :
    List (String × String) → List (String × String)
  | [] => [p]
  | q :: rest =>
      if pyStrLt q.1 p.1 then q :: sortPairsInsert p rest else p :: q :: rest

/-- Sort an association list by key, ascending, as `json.dump` with
`sort_keys=True` orders the serialized object. -/
def sortPairs : List (String × String) → List (String × String)
  | [] => []
  | p :: rest => sortPairsInsert p (sortPairs rest)

/-- StateManager.save_state (state_manager.py lines 91-122), successful
write: the file receives the in-memory map serialized as a JSON object with
sorted keys. -/
def save_state_content (state : List (String × String)) : JsonContent :=
  .dict (sortPairs state)

/-! ## main.py : decision engine -/

/-- Per-child configuration dictionary (main.py CHILDREN_CONFIG; the test
suites additionally put an auto_disable key into the dictionary, so the
embedding carries the field, defaulting to true as the spec states).
process_child reads only name, todoist_section_id and sophos_rule_name. -/
structure ChildConfig where
  name : String
  todoist_section_id : String
  sophos_rule_name : String
  auto_disable : Bool := true

/-- Time-status dictionary built by get_time_status (main.py lines 187-217);
now itself is irrelevant to the decision and is omitted. -/
structure TimeStatus where
  today_str : String
  current_hour : Nat
  cutoff_hour : Nat
  is_after_cutoff : Bool

/-- The computation of get_time_status (main.py line 199): the cutoff flag
is the inclusive comparison current_hour >= cutoff_hour. -/
def mk_time_status (today_str : String) (current_hour cutoff_hour : Nat) : TimeStatus :=
  { today_str := today_str
    current_hour := current_hour
    cutoff_hour := cutoff_hour
    is_after_cutoff := decide (current_hour ≥ cutoff_hour) }

/-- Outcome of a call to TodoistClient.are_child_tasks_incomplete, as
discriminated by the except chain of process_child (main.py lines 276-306):
a boolean answer, a TodoistApiError, a TodoistClientError or ValueError, or
any other exception. -/
inductive TodoistOutcome
  | result (tasks_incomplete : Bool)
  | apiError (msg : String)
  | clientError (msg : String)
  | unexpectedError (msg : String)

/-- Error message carried by a non-result Todoist outcome. -/
def TodoistOutcome.errMsg? : TodoistOutcome → Option String
  | .result _ => none
  | .apiError m => some m
  | .clientError m => some m
  | .unexpectedError m => some m

/-- Outcome of a call to SophosClient.set_rule_status, as discriminated by
apply_firewall_action (main.py lines 376-405): a boolean return value,
a SophosRuleNotFoundError, a SophosApiError or SophosConnectionError, or
any other exception. -/
inductive SophosOutcome
  | result (success : Bool)
  | ruleNotFound
  | apiOrConnectionError (msg : String)
  | unexpectedError (msg : String)

/-- The service dictionary built by initialize_services: each collaborator
may be absent (None). The Todoist client is its response to
are_child_tasks_incomplete(section_id); the Sophos client is its response
to set_rule_status(rule_name, target_enabled_state); the state manager is
its in-memory `_state` dictionary. -/
structure Services where
  todoist : Option (String → TodoistOutcome)
  sophos : Option (String → Bool → SophosOutcome)
  state_manager : Option (List (String × String))

/-- Guarded state query of process_child (main.py line 262):
`state_manager and state_manager.check_if_done_today(child_name, today_str)`. -/
def stateSaysDone (svc : Services) (child_name today_str : String) : Bool :=
  match svc.state_manager with
  | some st => check_if_done_today st child_name today_str
  | none => false

/-- Intention-determination phase of process_child (main.py lines 248-306):
computes the triple (intended_action, reason, should_update_state_on_success).
intended_action defaults to "ENABLE"; the pre-cutoff branch, the
state-says-done branch, and the chores-complete branch set it to "DISABLE";
only the chores-complete branch sets the state-update flag. -/
def determine_intention (cfg : ChildConfig) (ts : TimeStatus) (svc : Services) :
    String × String × Bool :=
  if ts.is_after_cutoff = false then
    ("DISABLE",
     "Time (" ++ toString ts.current_hour ++ ":00) is before cutoff ("
       ++ toString ts.cutoff_hour ++ ":00).",
     false)
  else if stateSaysDone svc cfg.name ts.today_str then
    ("DISABLE",
     "Already marked as completed today (" ++ ts.today_str ++ ") in state file.",
     false)
  else
    match svc.todoist with
    | none =>
        ("ENABLE", "Todoist client not available. Applying fail-safe (ENABLE rule).", false)
    | some are_child_tasks_incomplete =>
        match are_child_tasks_incomplete cfg.todoist_section_id with
        | .result true =>
            ("ENABLE", "Incomplete/overdue tasks found in Todoist.", false)
        | .result false =>
            ("DISABLE", "All tasks due today/overdue are complete in Todoist.", true)
        | .apiError m =>
            ("ENABLE", "Fail-safe due to Todoist API error after retries: " ++ m, false)
        | .clientError m =>
            ("ENABLE", "Fail-safe due to internal Todoist client error: " ++ m, false)
        | .unexpectedError m =>
            ("ENABLE", "Fail-safe due to unexpected error checking Todoist: " ++ m, false)

/-- apply_firewall_action (main.py lines 342-405), reached from process_child
with the client present: returns the boolean the client returned, and false
when the call raised (rule not found, API or connection error, or any
unexpected exception). -/
def apply_firewall_action (outcome : SophosOutcome) : Bool :=
  match outcome with
  | .result success => success
  | .ruleNotFound => false
  | .apiOrConnectionError _ => false
  | .unexpectedError _ => false

/-- Observable outcome of one process_child run for one child. -/
structure ProcessOutcome where
  skipped : Bool
  intended_action : String
  reason : String
  actuator_call : Option (String × Bool)
  action_successful : Bool
  mark_done_call : Option (String × String)
  final_state : Option (List (String × String))

/-- Outcome of the two early-return skips of process_child (main.py lines
241-246): nothing is applied and the state manager is untouched. -/
def skipOutcome (svc : Services) : ProcessOutcome :=
  { skipped := true
    intended_action := ""
    reason := ""
    actuator_call := none
    action_successful := false
    mark_done_call := none
    final_state := svc.state_manager }

/-- process_child (main.py lines 221-339): skip on missing section id or
rule name, skip on missing Sophos client; otherwise determine the intention,
apply it through apply_firewall_action with target_enabled_state equal to
(intended_action == "ENABLE"), and call mark_done_today exactly when the
action succeeded, the intended action was "DISABLE", and the
should-update-state flag was set by the chores-complete branch (lines
325-339). -/
def process_child (cfg : ChildConfig) (ts : TimeStatus) (svc : Services) : ProcessOutcome :=
  if pyFalsy cfg.todoist_section_id || pyFalsy cfg.sophos_rule_name then
    skipOutcome svc
  else
    match svc.sophos with
    | none => skipOutcome svc
    | some set_rule_status =>
        let dec := determine_intention cfg ts svc
        let target_enabled : Bool := decide (dec.1 = "ENABLE")
        let action_successful :=
          apply_firewall_action (set_rule_status cfg.sophos_rule_name target_enabled)
        if action_successful && decide (dec.1 = "DISABLE") && dec.2.2 then
          match svc.state_manager with
          | some st =>
              { skipped := false
                intended_action := dec.1
                reason := dec.2.1
                actuator_call := some (cfg.sophos_rule_name, target_enabled)
                action_successful := action_successful
                mark_done_call := some (cfg.name, ts.today_str)
                final_state := some (mark_done_today st cfg.name ts.today_str) }
          | none =>
              { skipped := false
                intended_action := dec.1
                reason := dec.2.1
                actuator_call := some (cfg.sophos_rule_name, target_enabled)
                action_successful := action_successful
                mark_done_call := none
                final_state := none }
        else
          { skipped := false
            intended_action := dec.1
            reason := dec.2.1
            actuator_call := some (cfg.sophos_rule_name, target_enabled)
            action_successful := action_successful
            mark_done_call := none
            final_state := svc.state_manager }

/-! ## scheduled_actions.py : ScheduledRuleEnforcer -/

/-- Python exception escaping the enforcer. -/
inductive PyError
  | attributeError (attr : String)

/-- The _parse_hhmm helper (scheduled_actions.py lines 20-30): reject an
empty string or one without a colon, split on the first colon, convert both
parts with int(), and range-check hour 0-23 and minute 0-59. Any failure
raises ValueError, modelled as `none`; the caller catches exactly
ValueError. -/
def parse_hhmm (time_str : String) : Option (Int × Int) :=
  if pyFalsy time_str || !(time_str.data.contains ':') then
    none
  else
    let beforeColon := String.mk (time_str.data.takeWhile (fun c => c != ':'))
    let afterColon := String.mk ((time_str.data.dropWhile (fun c => c != ':')).drop 1)
    match pyInt? beforeColon, pyInt? afterColon with
    | some hour, some minute =>
        if hour < 0 || 23 < hour then none
        else if minute < 0 || 59 < minute then none
        else some (hour, minute)
    | _, _ => none

/-- The _action_key_for_rule helper (scheduled_actions.py lines 33-36):
strip and lowercase the rule name, replace every non-alphanumeric character
with an underscore (ASCII isalnum semantics), and wrap the result in the
fixed key pattern. -/
def action_key_for_rule (rule_name : String) : String :=
  let base := pyLower (pyStrip rule_name)
  let safe := String.mk (base.data.map (fun c => if c.isAlphanum then c else '_'))
  "disable_" ++ safe ++ "_at_time"

/-- Result of a dynamic two-string-argument method call on an instance of
the StateManager class of state_manager.py. The class defines exactly
check_if_done_today (returning a bool) and mark_done_today (returning None
after updating the dictionary) with that shape; Python attribute lookup of
any other name raises AttributeError. -/
inductive SMCallResult
  | boolResult (b : Bool) (state : List (String × String))
  | noneResult (state : List (String × String))
  | raised (e : PyError)

/-- Python attribute dispatch for a two-string-argument method call on the
repository StateManager, derived from the method set of state_manager.py. -/
def stateManagerCall (state : List (String × String)) (attr a b : String) : SMCallResult :=
  if attr = "check_if_done_today" then
    .boolResult (check_if_done_today state a b) state
  else if attr = "mark_done_today" then
    .noneResult (mark_done_today state a b)
  else
    .raised (.attributeError attr)

/-- Store operations the enforcer invokes on its state manager, as dynamic
calls that may raise. The store state is the in-memory string-to-string
dictionary. -/
structure StoreOps where
  has_action_run : String → String → List (String × String) → Except PyError Bool
  mark_action_run : String → String → List (String × String) →
    Except PyError (List (String × String))

/-- Store operations obtained when the enforcer is constructed with the
repository StateManager: both names go through Python attribute dispatch on
the StateManager class, which defines neither has_action_run_today nor
mark_action_run_today. -/
def repoStateManagerOps : StoreOps where
  has_action_run := fun key date st =>
    match stateManagerCall st "has_action_run_today" key date with
    | .boolResult b _ => .ok b
    | .noneResult _ => .ok false
    | .raised e => .error e
  mark_action_run := fun key date st =>
    match stateManagerCall st "mark_action_run_today" key date with
    | .boolResult _ s => .ok s
    | .noneResult s => .ok s
    | .raised e => .error e

/-- Modelled from the spec: the scheduled-action store methods
has_action_run_today and mark_action_run_today, whose call sites are in
scheduled_actions.py but whose implementation is missing from the
repository. Spec section 3 (ScheduledActionState): a mapping from an
action-key to the date string on which the action last ran, with the same
per-key per-day contract as the daily-completion store, i.e. exact string
equality of the stored date (section 4.1), the key having been normalized
by the key-derivation function already. -/
def specStoreOps : StoreOps where
  has_action_run := fun key date st => .ok (decide (dictGet st key = some date))
  mark_action_run := fun key date st => .ok (dictSet st key date)

/-- Observable outcome of one enforce_daily_disable call: the returned
boolean or the escaped exception, the actuator call made (always with
target_enabled_state=False), and the store state afterwards. -/
structure EnforceResult where
  result : Except PyError Bool
  actuator_call : Option String
  state : List (String × String)

/-- ScheduledRuleEnforcer.enforce_daily_disable (scheduled_actions.py lines
50-99). The current moment is given as seconds of the local day plus the
local date string; the scheduled moment is today at HH:MM:00. The store
query and the completion record are dynamic method calls made outside any
try block, so an AttributeError from them propagates to the caller; only
the set_rule_status call is wrapped in try/except. The constructed
enforcer always has a non-None state manager, so the `if self._state`
truthiness guards pass. -/
def enforce_daily_disable (ops : StoreOps) (rule_name at_time_str : String)
    (nowSecOfDay : Nat) (today_str : String)
    (set_rule_status : String → Bool → SophosOutcome)
    (st : List (String × String)) : EnforceResult :=
  if pyFalsy rule_name then
    { result := .ok false, actuator_call := none, state := st }
  else
    match parse_hhmm at_time_str with
    | none => { result := .ok false, actuator_call := none, state := st }
    | some (target_hour, target_minute) =>
        if (nowSecOfDay : Int) < target_hour * 3600 + target_minute * 60 then
          { result := .ok false, actuator_call := none, state := st }
        else
          let action_key := action_key_for_rule rule_name
          match ops.has_action_run action_key today_str st with
          | .error e => { result := .error e, actuator_call := none, state := st }
          | .ok true => { result := .ok false, actuator_call := none, state := st }
          | .ok false =>
              match set_rule_status rule_name false with
              | .result true =>
                  match ops.mark_action_run action_key today_str st with
                  | .error e =>
                      { result := .error e, actuator_call := some rule_name, state := st }
                  | .ok st2 =>
                      { result := .ok true, actuator_call := some rule_name, state := st2 }
              | .result false =>
                  { result := .ok false, actuator_call := some rule_name, state := st }
              | .ruleNotFound =>
                  { result := .ok false, actuator_call := some rule_name, state := st }
              | .apiOrConnectionError _ =>
                  { result := .ok false, actuator_call := some rule_name, state := st }
              | .unexpectedError _ =>
                  { result := .ok false, actuator_call := some rule_name, state := st }

/-! ## Dictionary and sorting lemmas -/

theorem dictGet_dictSet_self (s : List (String × String)) (k v : String) :
    dictGet (dictSet s k v) k = some v := by
  induction s with
  | nil => simp [dictSet, dictGet]
  | cons p rest ih =>
      obtain ⟨pk, pv⟩ := p
      by_cases h : pk = k
      · simp [dictSet, dictGet, h]
      · simp [dictSet, dictGet, h, ih]

theorem sortPairsInsert_perm (p : String × String) (l : List (String × String)) :
    List.Perm (sortPairsInsert p l) (p :: l) := by
  induction l with
  | nil => exact List.Perm.refl _
  | cons q rest ih =>
      by_cases h : pyStrLt q.1 p.1
      · simp only [sortPairsInsert, h, if_true]
        exact (ih.cons q).trans (List.Perm.swap p q rest)
      · simp only [sortPairsInsert, h, if_false]
        exact List.Perm.refl _

theorem sortPairs_perm (l : List (String × String)) : List.Perm (sortPairs l) l := by
  induction l with
  | nil => exact List.Perm.refl _
  | cons p rest ih =>
      exact (sortPairsInsert_perm p (sortPairs rest)).trans (ih.cons p)

theorem dictGet_sortPairsInsert (p : String × String) (l : List (String × String)) (k : String)
    (h : p.1 ∉ l.map Prod.fst) :
    dictGet (sortPairsInsert p l) k = if p.1 = k then some p.2 else dictGet l k := by
  induction l with
  | nil =>
      obtain ⟨pk, pv⟩ := p
      simp [sortPairsInsert, dictGet]
  | cons q rest ih =>
      obtain ⟨pk, pv⟩ := p
      obtain ⟨qk, qv⟩ := q
      simp only [List.map_cons, List.mem_cons, not_or] at h
      obtain ⟨hne, hnotin⟩ := h
      by_cases hlt : pyStrLt qk pk
      · simp only [sortPairsInsert, hlt, if_true]
        by_cases hq : qk = k
        · have hpk : ¬(pk = k) := fun hh => hne (hh.trans hq.symm)
          simp [dictGet, hq, hpk]
        · simp [dictGet, hq, ih hnotin]
      · simp only [sortPairsInsert, hlt, if_false]
        by_cases hp : pk = k
        · simp [dictGet, hp]
        · simp [dictGet, hp]

theorem dictGet_sortPairs (l : List (String × String))
    (hnd : (l.map Prod.fst).Nodup) (k : String) :
    dictGet (sortPairs l) k = dictGet l k := by
  induction l with
  | nil => rfl
  | cons p rest ih =>
      simp only [List.map_cons, List.nodup_cons] at hnd
      obtain ⟨hnotin, hnd2⟩ := hnd
      have hnotin2 : p.1 ∉ (sortPairs rest).map Prod.fst := by
        intro hmem
        exact hnotin (((sortPairs_perm rest).map Prod.fst).mem_iff.mp hmem)
      rw [sortPairs, dictGet_sortPairsInsert _ _ _ hnotin2]
      obtain ⟨pk, pv⟩ := p
      by_cases hp : pk = k
      · simp [dictGet, hp]
      · simp [dictGet, hp, ih hnd2]

/-! ## Claim theorems -/

/-- Claim C8 fails as stated at the empty key: mark_done_today refuses empty
arguments and check_if_done_today returns false on them, so the claimed
mark-then-check round trip does not hold for the key X equal to the empty
string. -/
theorem C8_counterexample_empty_key :
    check_if_done_today (mark_done_today [] "" "2025-08-08") "" "2025-08-08" = false := by
  decide

/-- Claim C8 (amended to non-empty key and non-empty date, which the
empty-argument guards force): for non-empty key and dateStr,
check_if_done_today is true iff the stored value for the lowercased key
equals dateStr by exact string equality; and after mark_done_today(X, d)
the query check_if_done_today(X, d) is true while check_if_done_today(X, e)
is false for every e different from d, without any reload. -/
theorem C8_check_iff_exact_date_match (st : List (String × String)) (X d : String)
    (hX : pyFalsy X = false) (hd : pyFalsy d = false) :
    (∀ q : String, pyFalsy q = false →
        (check_if_done_today st X q = true ↔ dictGet st (pyLower X) = some q)) ∧
    check_if_done_today (mark_done_today st X d) X d = true ∧
    (∀ e : String, e ≠ d → check_if_done_today (mark_done_today st X d) X e = false) := by
  refine ⟨?_, ?_, ?_⟩
  · intro q hq
    simp [check_if_done_today, hX, hq]
  · simp [check_if_done_today, mark_done_today, hX, hd, dictGet_dictSet_self]
  · intro e hne
    by_cases he : pyFalsy e
    · simp [check_if_done_today, he]
    · simp [check_if_done_today, mark_done_today, hX, hd, he, dictGet_dictSet_self]
      exact fun hh => hne hh.symm

/-- Witness for C8: the amended round trip evaluated at a concrete child
name and date. -/
theorem C8_check_iff_exact_date_match_witness :
    check_if_done_today (mark_done_today [] "Daniel" "2025-08-08") "Daniel" "2025-08-08" = true :=
  (C8_check_iff_exact_date_match [] "Daniel" "2025-08-08" (by decide) (by decide)).2.1

/-- Claim C9: load_state is total over every read outcome (it never raises);
file not found, JSON decode failure, IO error, non-object content, and any
unexpected error all reset the in-memory state to the empty map, and a
well-formed JSON object becomes the new state verbatim. -/
theorem C9_load_state_never_raises (r : ReadOutcome) :
    (∀ d, r.okDict? = some d → load_state r = d) ∧
    (r.okDict? = none → load_state r = []) := by
  cases r with
  | ok j => cases j <;> simp [ReadOutcome.okDict?, load_state]
  | fileNotFound => simp [ReadOutcome.okDict?, load_state]
  | jsonDecodeError => simp [ReadOutcome.okDict?, load_state]
  | ioError => simp [ReadOutcome.okDict?, load_state]
  | unexpectedError => simp [ReadOutcome.okDict?, load_state]

/-- Witness for C9: a JSON decode failure yields the empty state. -/
theorem C9_load_state_never_raises_witness :
    load_state .jsonDecodeError = [] :=
  (C9_load_state_never_raises .jsonDecodeError).2 rfl

/-- Claim C10: saving the in-memory map (serialized with sorted keys) and
loading it into a fresh store yields a map equal to the original: the
loaded association list is a permutation of the original and, for a genuine
dictionary (no duplicate keys), every lookup agrees. -/
theorem C10_save_load_round_trip (s : List (String × String))
    (hnd : (s.map Prod.fst).Nodup) :
    List.Perm (load_state (.ok (save_state_content s))) s ∧
    (∀ k, dictGet (load_state (.ok (save_state_content s))) k = dictGet s k) := by
  constructor
  · simpa [load_state, save_state_content] using sortPairs_perm s
  · intro k
    simpa [load_state, save_state_content] using dictGet_sortPairs s hnd k

/-- Witness for C10: the round trip at a concrete two-entry state. -/
theorem C10_save_load_round_trip_witness :
    List.Perm
      (load_state (.ok (save_state_content [("sophie", "2025-08-08"), ("daniel", "2025-08-07")])))
      [("sophie", "2025-08-08"), ("daniel", "2025-08-07")] :=
  (C10_save_load_round_trip [("sophie", "2025-08-08"), ("daniel", "2025-08-07")] (by decide)).1

/-- Concrete inputs for the C1 scenario: 20:30 with the state store already
marking the child done today, oracle reporting chores complete, actuator
succeeding (the setting of test_time_logic.py, test_bedtime_overrides_completed_chores). -/
def bedtimeScenarioCfg : ChildConfig :=
  { name := "TestChild"
    todoist_section_id := "123456"
    sophos_rule_name := "TestChild_Block_Rule" }

/-- Services for the C1 scenario. -/
def bedtimeScenarioSvc : Services :=
  { todoist := some (fun _ => .result false)
    sophos := some (fun _ _ => .result true)
    state_manager := some [("testchild", "2025-08-08")] }

/-- Claim C1: the claim says that at 20:30 (inside the configured bedtime
deny window) process_child targets the rule ENABLED with reason bedtime
even when the state store marks the child done. The code has no bedtime
branch: at hour 20 with the state marked done it issues DISABLE with the
already-completed reason, contradicting the claim and the repository test
suite (test_time_logic.py expects ENABLE at 20:00-23:59). -/
theorem C1_bedtime_branch_absent :
    (process_child bedtimeScenarioCfg (mk_time_status "2025-08-08" 20 14)
        bedtimeScenarioSvc).intended_action = "DISABLE" ∧
    (process_child bedtimeScenarioCfg (mk_time_status "2025-08-08" 20 14)
        bedtimeScenarioSvc).intended_action ≠ "ENABLE" ∧
    (process_child bedtimeScenarioCfg (mk_time_status "2025-08-08" 20 14)
        bedtimeScenarioSvc).reason
      = "Already marked as completed today (2025-08-08) in state file." ∧
    (process_child bedtimeScenarioCfg (mk_time_status "2025-08-08" 20 14)
        bedtimeScenarioSvc).actuator_call = some ("TestChild_Block_Rule", false) := by
  refine ⟨by decide, by decide, by decide, by decide⟩

/-- Concrete inputs for the C2 scenario: a child configured with
auto_disable=false, before the cutoff (the setting of
test_auto_disable_suppression.py, test_before_cutoff_disable_is_suppressed). -/
def suppressedChildCfg : ChildConfig :=
  { name := "Sophie"
    todoist_section_id := "section_sophie"
    sophos_rule_name := "Sophie_Block_Rule"
    auto_disable := false }

/-- Services for the C2 scenario. -/
def suppressedChildSvc : Services :=
  { todoist := some (fun _ => .result false)
    sophos := some (fun _ _ => .result true)
    state_manager := some [] }

/-- Claim C2: the claim says a child with auto_disable=false gets no
actuator call on any DISABLE path. process_child never reads the
auto_disable key: before the cutoff it calls the actuator with
target_enabled_state=False for the suppressed child exactly as for any
other, contradicting the claim and the repository test suite
(test_auto_disable_suppression.py expects no call). -/
theorem C2_auto_disable_never_read :
    (process_child suppressedChildCfg (mk_time_status "2025-08-08" 9 14)
        suppressedChildSvc).actuator_call = some ("Sophie_Block_Rule", false) ∧
    (process_child suppressedChildCfg (mk_time_status "2025-08-08" 9 14)
        suppressedChildSvc).actuator_call ≠ none ∧
    (process_child suppressedChildCfg (mk_time_status "2025-08-08" 9 14)
        suppressedChildSvc).intended_action = "DISABLE" := by
  refine ⟨by decide, by decide, by decide⟩

/-- Claim C3: an enforcer constructed with the repository StateManager
raises AttributeError to its caller on every call that reaches the store
query: non-empty rule name, parseable HH:MM time, and current time at or
after the scheduled moment. The dynamic call of has_action_run_today is
outside every try block and the StateManager class does not define that
attribute. -/
theorem C3_repo_state_manager_attribute_error
    (rule_name at_time_str today_str : String) (nowSec : Nat) (hh mm : Int)
    (set_rule_status : String → Bool → SophosOutcome) (st : List (String × String))
    (hrule : pyFalsy rule_name = false)
    (hparse : parse_hhmm at_time_str = some (hh, mm))
    (hnow : hh * 3600 + mm * 60 ≤ (nowSec : Int)) :
    (enforce_daily_disable repoStateManagerOps rule_name at_time_str nowSec today_str
        set_rule_status st).result
      = .error (.attributeError "has_action_run_today") := by
  have hno : ¬((nowSec : Int) < hh * 3600 + mm * 60) := not_lt.mpr hnow
  simp [enforce_daily_disable, hrule, hparse, hno, repoStateManagerOps, stateManagerCall]

/-- Witness for C3: the concrete call of the repository wiring, rule
"Manual Sophie - Allow" at 19:35 with a 19:30 schedule. -/
theorem C3_repo_state_manager_attribute_error_witness :
    (enforce_daily_disable repoStateManagerOps "Manual Sophie - Allow" "19:30" 70500
        "2025-08-08" (fun _ _ => .result true) []).result
      = .error (.attributeError "has_action_run_today") :=
  C3_repo_state_manager_attribute_error "Manual Sophie - Allow" "19:30" "2025-08-08" 70500
    19 30 (fun _ _ => .result true) [] (by decide) (by decide) (by decide)

/-- Claim C5: on or after the cutoff hour, with the child not marked done in
state, any error raised by the oracle query (TodoistApiError,
TodoistClientError or ValueError, or an unexpected exception) makes
process_child fail-safe to the rule ENABLED with a reason carrying the
error detail, with no mark_done_today call and the state store untouched. -/
theorem C5_oracle_error_fail_safe
    (cfg : ChildConfig) (today : String) (hcur ccut : Nat) (svc : Services)
    (oracle : String → TodoistOutcome) (set_rule_status : String → Bool → SophosOutcome)
    (msg : String)
    (hsec : pyFalsy cfg.todoist_section_id = false)
    (hrule : pyFalsy cfg.sophos_rule_name = false)
    (hsoph : svc.sophos = some set_rule_status)
    (hcut : ccut ≤ hcur)
    (hnotdone : stateSaysDone svc cfg.name today = false)
    (htodo : svc.todoist = some oracle)
    (herr : (oracle cfg.todoist_section_id).errMsg? = some msg) :
    (process_child cfg (mk_time_status today hcur ccut) svc).intended_action = "ENABLE" ∧
    (∃ p, (process_child cfg (mk_time_status today hcur ccut) svc).reason = p ++ msg) ∧
    (process_child cfg (mk_time_status today hcur ccut) svc).actuator_call
      = some (cfg.sophos_rule_name, true) ∧
    (process_child cfg (mk_time_status today hcur ccut) svc).mark_done_call = none ∧
    (process_child cfg (mk_time_status today hcur ccut) svc).final_state
      = svc.state_manager := by
  have hafter : (mk_time_status today hcur ccut).is_after_cutoff = true := by
    simp only [mk_time_status, decide_eq_true_eq]
    exact hcut
  have hnlt : ¬hcur < ccut := not_lt.mpr hcut
  have hdec : ∃ p, determine_intention cfg (mk_time_status today hcur ccut) svc
      = ("ENABLE", p ++ msg, false) := by
    cases houtcome : oracle cfg.todoist_section_id with
    | result b =>
        rw [houtcome] at herr
        simp [TodoistOutcome.errMsg?] at herr
    | apiError m =>
        rw [houtcome] at herr
        simp only [TodoistOutcome.errMsg?, Option.some.injEq] at herr
        subst herr
        exact ⟨"Fail-safe due to Todoist API error after retries: ",
          by simp [determine_intention, mk_time_status, hafter, hnotdone, htodo, houtcome, hnlt]⟩
    | clientError m =>
        rw [houtcome] at herr
        simp only [TodoistOutcome.errMsg?, Option.some.injEq] at herr
        subst herr
        exact ⟨"Fail-safe due to internal Todoist client error: ",
          by simp [determine_intention, mk_time_status, hafter, hnotdone, htodo, houtcome, hnlt]⟩
    | unexpectedError m =>
        rw [houtcome] at herr
        simp only [TodoistOutcome.errMsg?, Option.some.injEq] at herr
        subst herr
        exact ⟨"Fail-safe due to unexpected error checking Todoist: ",
          by simp [determine_intention, mk_time_status, hafter, hnotdone, htodo, houtcome, hnlt]⟩
  obtain ⟨p, hdec⟩ := hdec
  refine ⟨?_, ⟨p, ?_⟩, ?_, ?_, ?_⟩ <;>
    simp [process_child, hsec, hrule, hsoph, hdec]

/-- Oracle for the C5 witness: a terminal API error. -/
def failingOracle : String → TodoistOutcome :=
  fun _ => .apiError "HTTP 500 after 3 retries"

/-- Actuator for the C5 witness. -/
def succeedingActuator : String → Bool → SophosOutcome :=
  fun _ _ => .result true

/-- Services for the C5 witness. -/
def oracleErrorSvc : Services :=
  { todoist := some failingOracle
    sophos := some succeedingActuator
    state_manager := some [] }

/-- Witness for C5: the oracle raising a terminal API error at 15:00 with
cutoff 14 yields fail-safe ENABLE. -/
theorem C5_oracle_error_fail_safe_witness :
    (process_child bedtimeScenarioCfg (mk_time_status "2025-08-08" 15 14)
        oracleErrorSvc).intended_action = "ENABLE" ∧
    (process_child bedtimeScenarioCfg (mk_time_status "2025-08-08" 15 14)
        oracleErrorSvc).mark_done_call = none :=
  have h := C5_oracle_error_fail_safe bedtimeScenarioCfg "2025-08-08" 15 14 oracleErrorSvc
    failingOracle succeedingActuator "HTTP 500 after 3 retries"
    (by decide) (by decide) rfl (by decide) (by decide) rfl (by decide)
  ⟨h.1, h.2.2.2.1⟩

/-- Claim C7: with valid configuration, an available actuator and
auto_disable=true, a current hour strictly below the cutoff hour always
produces the DISABLE action, never ENABLE, with the actuator called with
target_enabled_state=False; and the cutoff comparison of get_time_status is
inclusive, so at exactly the cutoff hour the flag is already true and the
before-cutoff branch is not taken. -/
theorem C7_strictly_before_cutoff_disable
    (cfg : ChildConfig) (today : String) (hcur ccut : Nat) (svc : Services)
    (set_rule_status : String → Bool → SophosOutcome)
    (hauto : cfg.auto_disable = true)
    (hsec : pyFalsy cfg.todoist_section_id = false)
    (hrule : pyFalsy cfg.sophos_rule_name = false)
    (hsoph : svc.sophos = some set_rule_status)
    (hlt : hcur < ccut) :
    (process_child cfg (mk_time_status today hcur ccut) svc).intended_action = "DISABLE" ∧
    (process_child cfg (mk_time_status today hcur ccut) svc).intended_action ≠ "ENABLE" ∧
    (process_child cfg (mk_time_status today hcur ccut) svc).actuator_call
      = some (cfg.sophos_rule_name, false) ∧
    (mk_time_status today ccut ccut).is_after_cutoff = true := by
  have hflag : (mk_time_status today hcur ccut).is_after_cutoff = false := by
    simp only [mk_time_status, decide_eq_false_iff_not]
    omega
  have hdec : determine_intention cfg (mk_time_status today hcur ccut) svc
      = ("DISABLE",
         "Time (" ++ toString hcur ++ ":00) is before cutoff (" ++ toString ccut ++ ":00).",
         false) := by
    simp only [determine_intention, hflag]
    simp [mk_time_status]
  refine ⟨?_, ?_, ?_, ?_⟩
  · simp [process_child, hsec, hrule, hsoph, hdec]
  · simp [process_child, hsec, hrule, hsoph, hdec]
  · simp [process_child, hsec, hrule, hsoph, hdec]
  · simp only [mk_time_status, decide_eq_true_eq]
    exact Nat.le_refl ccut

/-- Witness for C7: 09:00 with cutoff 14 issues DISABLE with the actuator
called to disable the rule, and hour 14 itself is already after the cutoff. -/
theorem C7_strictly_before_cutoff_disable_witness :
    (process_child bedtimeScenarioCfg (mk_time_status "2025-08-08" 9 14)
        bedtimeScenarioSvc).intended_action = "DISABLE" ∧
    (mk_time_status "2025-08-08" 14 14).is_after_cutoff = true :=
  have h := C7_strictly_before_cutoff_disable bedtimeScenarioCfg "2025-08-08" 9 14
    bedtimeScenarioSvc (fun _ _ => .result true)
    (by decide) (by decide) (by decide) rfl (by decide)
  ⟨h.1, h.2.2.2⟩

/-- Claim C4: process_child calls mark_done_today exactly when the actuator
reported success, the applied target was DISABLE, the should-update flag
was set by the chores-complete branch of the intention phase, and a state
manager is present; in every outcome without a mark_done_today call the
state map is left unchanged by the run. -/
theorem C4_mark_done_gating (cfg : ChildConfig) (ts : TimeStatus) (svc : Services) :
    ((process_child cfg ts svc).mark_done_call = some (cfg.name, ts.today_str) ↔
      (pyFalsy cfg.todoist_section_id || pyFalsy cfg.sophos_rule_name) = false ∧
      svc.sophos.isSome = true ∧
      svc.state_manager.isSome = true ∧
      (process_child cfg ts svc).action_successful = true ∧
      (process_child cfg ts svc).intended_action = "DISABLE" ∧
      (determine_intention cfg ts svc).2.2 = true) ∧
    ((process_child cfg ts svc).mark_done_call = none →
      (process_child cfg ts svc).final_state = svc.state_manager) := by
  by_cases hc : (pyFalsy cfg.todoist_section_id || pyFalsy cfg.sophos_rule_name) = true
  · refine ⟨?_, ?_⟩ <;> simp [process_child, hc, skipOutcome]
  · rw [Bool.not_eq_true] at hc
    cases hsoph : svc.sophos with
    | none => refine ⟨?_, ?_⟩ <;> simp [process_child, hc, hsoph, skipOutcome]
    | some f =>
        by_cases hgate : (apply_firewall_action
              (f cfg.sophos_rule_name (decide ((determine_intention cfg ts svc).1 = "ENABLE")))
            && decide ((determine_intention cfg ts svc).1 = "DISABLE")
            && (determine_intention cfg ts svc).2.2) = true
        · have hview := hgate
          simp only [Bool.and_eq_true] at hview
          obtain ⟨⟨ha, hb⟩, hflag⟩ := hview
          have hdis : (determine_intention cfg ts svc).1 = "DISABLE" := of_decide_eq_true hb
          cases hsm : svc.state_manager with
          | none => refine ⟨?_, ?_⟩ <;> simp [process_child, hc, hsoph, hgate, hsm]
          | some st =>
              have ha2 : apply_firewall_action (f cfg.sophos_rule_name false) = true := by
                simpa [hdis] using ha
              refine ⟨?_, ?_⟩
              · simp [process_child, hc, hsoph, hsm, hdis, hflag, ha2]
              · simp [process_child, hc, hsoph, hsm, hdis, hflag, ha2]
        · rw [Bool.not_eq_true] at hgate
          refine ⟨?_, ?_⟩
          · constructor
            · intro hmark
              exfalso
              revert hmark
              simp [process_child, hc, hsoph, hgate]
            · rintro ⟨-, -, -, h4, h5, h6⟩
              simp only [process_child, hc, hsoph, hgate] at h4 h5
              simp only [Bool.false_eq_true, if_false] at h4 h5
              exfalso
              rw [h4, h5, h6] at hgate
              simp at hgate
          · simp [process_child, hc, hsoph, hgate]

/-- Witness for C4: a run whose mark_done_call is absent (the pre-cutoff
DISABLE at 09:00) leaves the state map unchanged. -/
theorem C4_mark_done_gating_witness :
    (process_child bedtimeScenarioCfg (mk_time_status "2025-08-08" 9 14)
        bedtimeScenarioSvc).final_state = bedtimeScenarioSvc.state_manager :=
  (C4_mark_done_gating bedtimeScenarioCfg (mk_time_status "2025-08-08" 9 14)
    bedtimeScenarioSvc).2 (by decide)

/-- Successful-path lemma for the scheduled enforcer with the per-day
action store: at or after the scheduled time, with no record for today and
a succeeding actuator, the call returns true, calls the actuator once, and
records today under the action key. -/
theorem enforce_daily_disable_success
    (rule_name at_time_str : String) (hh mm : Int) (nowSec : Nat) (today : String)
    (soph : String → Bool → SophosOutcome) (st : List (String × String))
    (hrule : pyFalsy rule_name = false)
    (hparse : parse_hhmm at_time_str = some (hh, mm))
    (hge : hh * 3600 + mm * 60 ≤ (nowSec : Int))
    (hhas : dictGet st (action_key_for_rule rule_name) ≠ some today)
    (hsoph : soph rule_name false = .result true) :
    enforce_daily_disable specStoreOps rule_name at_time_str nowSec today soph st
      = ⟨.ok true, some rule_name, dictSet st (action_key_for_rule rule_name) today⟩ := by
  have hnlt : ¬((nowSec : Int) < hh * 3600 + mm * 60) := not_lt.mpr hge
  simp [enforce_daily_disable, hrule, hparse, hnlt, specStoreOps, hhas, hsoph]

/-- Claim C6: with the per-day action store the enforcer returns true and
records completion for today exactly on the path where the time is at or
after the scheduled HH:MM, the key has no record for today, and the
actuator succeeds; it returns false with no actuator call when too early or
already recorded; it returns false and records nothing when the actuator
returns false or raises; and after a successful run it fires again on a
different date string. -/
theorem C6_enforcer_once_per_day
    (rule_name at_time_str : String) (hh mm : Int)
    (hrule : pyFalsy rule_name = false)
    (hparse : parse_hhmm at_time_str = some (hh, mm)) :
    (∀ (nowSec : Nat) (today : String) (soph : String → Bool → SophosOutcome)
        (st : List (String × String)),
        (nowSec : Int) < hh * 3600 + mm * 60 →
        enforce_daily_disable specStoreOps rule_name at_time_str nowSec today soph st
          = ⟨.ok false, none, st⟩) ∧
    (∀ (nowSec : Nat) (today : String) (soph : String → Bool → SophosOutcome)
        (st : List (String × String)),
        hh * 3600 + mm * 60 ≤ (nowSec : Int) →
        dictGet st (action_key_for_rule rule_name) = some today →
        enforce_daily_disable specStoreOps rule_name at_time_str nowSec today soph st
          = ⟨.ok false, none, st⟩) ∧
    (∀ (nowSec : Nat) (today : String) (soph : String → Bool → SophosOutcome)
        (st : List (String × String)),
        hh * 3600 + mm * 60 ≤ (nowSec : Int) →
        dictGet st (action_key_for_rule rule_name) ≠ some today →
        soph rule_name false = .result true →
        enforce_daily_disable specStoreOps rule_name at_time_str nowSec today soph st
          = ⟨.ok true, some rule_name,
             dictSet st (action_key_for_rule rule_name) today⟩) ∧
    (∀ (nowSec : Nat) (today : String) (soph : String → Bool → SophosOutcome)
        (st : List (String × String)),
        soph rule_name false ≠ .result true →
        (enforce_daily_disable specStoreOps rule_name at_time_str nowSec today soph st).result
            = .ok false ∧
        (enforce_daily_disable specStoreOps rule_name at_time_str nowSec today soph st).state
            = st) ∧
    (∀ (nowSec nowSec2 : Nat) (today today2 : String)
        (soph soph2 : String → Bool → SophosOutcome) (st : List (String × String)),
        hh * 3600 + mm * 60 ≤ (nowSec : Int) →
        hh * 3600 + mm * 60 ≤ (nowSec2 : Int) →
        today2 ≠ today →
        dictGet st (action_key_for_rule rule_name) ≠ some today →
        soph rule_name false = .result true →
        soph2 rule_name false = .result true →
        (enforce_daily_disable specStoreOps rule_name at_time_str nowSec2 today2 soph2
            (enforce_daily_disable specStoreOps rule_name at_time_str nowSec today soph
              st).state).result
          = .ok true) := by
  refine ⟨?_, ?_, ?_, ?_, ?_⟩
  · intro nowSec today soph st hlt
    simp [enforce_daily_disable, hrule, hparse, hlt]
  · intro nowSec today soph st hge hhas
    have hnlt : ¬((nowSec : Int) < hh * 3600 + mm * 60) := not_lt.mpr hge
    simp [enforce_daily_disable, hrule, hparse, hnlt, specStoreOps, hhas]
  · intro nowSec today soph st hge hhas hsoph
    exact enforce_daily_disable_success rule_name at_time_str hh mm nowSec today soph st
      hrule hparse hge hhas hsoph
  · intro nowSec today soph st hfail
    by_cases hlt : (nowSec : Int) < hh * 3600 + mm * 60
    · simp [enforce_daily_disable, hrule, hparse, hlt]
    · by_cases hhas : dictGet st (action_key_for_rule rule_name) = some today
      · simp [enforce_daily_disable, hrule, hparse, hlt, specStoreOps, hhas]
      · cases houtcome : soph rule_name false with
        | result b =>
            cases b with
            | true => exact absurd houtcome hfail
            | false =>
                refine ⟨?_, ?_⟩ <;>
                  simp [enforce_daily_disable, hrule, hparse, hlt, specStoreOps, hhas, houtcome]
        | ruleNotFound =>
            refine ⟨?_, ?_⟩ <;>
              simp [enforce_daily_disable, hrule, hparse, hlt, specStoreOps, hhas, houtcome]
        | apiOrConnectionError m =>
            refine ⟨?_, ?_⟩ <;>
              simp [enforce_daily_disable, hrule, hparse, hlt, specStoreOps, hhas, houtcome]
        | unexpectedError m =>
            refine ⟨?_, ?_⟩ <;>
              simp [enforce_daily_disable, hrule, hparse, hlt, specStoreOps, hhas, houtcome]
  · intro nowSec nowSec2 today today2 soph soph2 st hge hge2 hne hhas hsoph hsoph2
    have h1 := enforce_daily_disable_success rule_name at_time_str hh mm nowSec today soph st
      hrule hparse hge hhas hsoph
    have hhas2 : dictGet (dictSet st (action_key_for_rule rule_name) today)
        (action_key_for_rule rule_name) ≠ some today2 := by
      rw [dictGet_dictSet_self]
      intro hx
      exact hne (Option.some.inj hx).symm
    have h2 := enforce_daily_disable_success rule_name at_time_str hh mm nowSec2 today2 soph2
      (dictSet st (action_key_for_rule rule_name) today)
      hrule hparse hge2 hhas2 hsoph2
    rw [h1, h2]

/-- Witness for C6: the 19:30 schedule checked at 19:35 on an empty store
with a succeeding actuator fires, calls the actuator, and records the day. -/
theorem C6_enforcer_once_per_day_witness :
    enforce_daily_disable specStoreOps "Manual Sophie - Allow" "19:30" 70500 "2025-08-08"
        succeedingActuator []
      = ⟨.ok true, some "Manual Sophie - Allow",
         [("disable_manual_sophie___allow_at_time", "2025-08-08")]⟩ :=
  (C6_enforcer_once_per_day "Manual Sophie - Allow" "19:30" 19 30
    (by decide) (by decide)).2.2.1 70500 "2025-08-08" succeedingActuator []
    (by decide) (by decide) rfl

end ChoreMonitor
